import Mathlib

/-!
Shallow embedding of the extrapolation engine of the `scene_extrapolation`
integration (`custom_components/scene_extrapolation/scene.py`) together with
theorems about its specification.

Python floats are modelled as rationals, Python ints as integers.  Fallible
code (functions that can raise `HomeAssistantError`) returns `Except Unit`.
-/

namespace SceneExtrapolation

/-- Python `round`: round half to even (banker's rounding), as used by the
source for every interpolated scalar. -/
def pyRound (q : ℚ) : ℤ :=
  if q - ⌊q⌋ = 1/2 then (if ⌊q⌋ % 2 = 0 then ⌊q⌋ else ⌊q⌋ + 1) else ⌊q + 1/2⌋

/-- Python `int(...)` applied to a float: truncation toward zero. -/
def pyTrunc (q : ℚ) : ℤ :=
  if q < 0 then ⌈q⌉ else ⌊q⌋

/-- Python `%` on floats with a positive modulus: `a - b * floor (a / b)`. -/
def pymod (a b : ℚ) : ℚ :=
  a - b * ⌊a / b⌋

/-- A scene snapshot as assembled by `async_get_in_memory_scenes`: the fields
relevant to extrapolation are the scene's `entity_id` and its map of entity
states (modelled as an association list, preserving insertion order like a
Python dict). -/
structure Scene (α : Type) where
  entity_id : String
  entities : List (String × α)
  deriving Repr, DecidableEq

/-- `SunEvent` from `scene.py`: a named solar event bound to a scene and a
start time in seconds since midnight (a Python float). -/
structure SunEvent (α : Type) where
  name : String
  start_time : ℚ
  scene : Scene α
  deriving Repr, DecidableEq

/-- The `transition_progress` value computed by
`get_scene_transition_progress_percent` before its range validation: the
let-chain of the source function up to and including `transition_progress`. -/
def transition_progress_value {α : Type}
    (current_sun_event next_sun_event : SunEvent α)
    (seconds_since_midnight : ℚ) : ℚ :=
  let seconds_since_midnight := pymod seconds_since_midnight 86400
  let crossing_midnight :=
    current_sun_event.start_time > next_sun_event.start_time
  let seconds_between_current_and_next_sun_events :=
    if crossing_midnight then
      86400 - current_sun_event.start_time + next_sun_event.start_time
    else
      next_sun_event.start_time - current_sun_event.start_time
  let seconds_till_next_sun_event :=
    if crossing_midnight then
      if seconds_since_midnight < next_sun_event.start_time then
        next_sun_event.start_time - seconds_since_midnight
      else
        86400 - seconds_since_midnight + next_sun_event.start_time
    else
      next_sun_event.start_time - seconds_since_midnight
  if seconds_between_current_and_next_sun_events = 0 then 0
  else
    100 * (seconds_between_current_and_next_sun_events
            - seconds_till_next_sun_event)
      / seconds_between_current_and_next_sun_events

/-- `ExtrapolationScene.get_scene_transition_progress_percent`: percentage of
how far between the current and next sun events `seconds_since_midnight`
sits.  Raises (`Except.error`, a `HomeAssistantError` in the source) when the
computed progress falls outside `[0, 100]`. -/
def get_scene_transition_progress_percent {α : Type}
    (current_sun_event next_sun_event : SunEvent α)
    (seconds_since_midnight : ℚ) : Except Unit ℚ :=
  let transition_progress :=
    transition_progress_value current_sun_event next_sun_event
      seconds_since_midnight
  if transition_progress < 0 ∨ transition_progress > 100 then
    Except.error ()
  else
    Except.ok transition_progress

/-- The progress formula exactly as claim C1 words it: reduce `atSeconds`
modulo 86400, then branch on whether the pair straddles midnight, with
`span = 0` yielding `0`. -/
def claimProgressFormula (currentStart nextStart atSeconds : ℚ) : ℚ :=
  let a := pymod atSeconds 86400
  if currentStart > nextStart then
    let span := 86400 - currentStart + nextStart
    let remaining :=
      if a < nextStart then nextStart - a else 86400 - a + nextStart
    if span = 0 then 0 else 100 * (span - remaining) / span
  else
    let span := nextStart - currentStart
    let remaining := nextStart - a
    if span = 0 then 0 else 100 * (span - remaining) / span

/-- An empty scene used for concrete test events. -/
def emptyScene : Scene Unit := { entity_id := "scene.empty", entities := [] }

/-- Concrete event at 23:00, used by the worked examples. -/
def duskDemo : SunEvent Unit :=
  { name := "Dusk", start_time := 82800, scene := emptyScene }

/-- Concrete event at 00:30, used by the worked examples. -/
def dawnDemo : SunEvent Unit :=
  { name := "Dawn", start_time := 1800, scene := emptyScene }

/-- Attributes of one entity inside a scene snapshot.  Optional fields model
optional dictionary keys; a key stored with a null value is modelled as the
key being absent (the source treats both by borrowing the other side's
value).  Channel values and brightness are Python numbers, modelled as
rationals. -/
structure EntityAttrs where
  state : Option String := none
  brightness : Option ℚ := none
  color_mode : Option String := none
  color_temp_kelvin : Option ℚ := none
  rgb_color : Option (ℚ × ℚ × ℚ) := none
  hs_color : Option (ℚ × ℚ) := none
  rgbw_color : Option (ℚ × ℚ × ℚ × ℚ) := none
  rgbww_color : Option (ℚ × ℚ × ℚ × ℚ × ℚ) := none
  effect : Option String := none
  deriving Repr, DecidableEq

/-- `extrapolate_value` from `scene.py`: plain linear interpolation of one
channel, rounded with Python `round`. -/
def extrapolate_value (from_value to_value : ℚ)
    (scene_transition_progress_percent : ℚ) : ℤ :=
  let difference := to_value - from_value
  let current_transition_difference :=
    difference * scene_transition_progress_percent / 100
  pyRound (from_value + current_transition_difference)

/-- `extrapolate_number` from `scene.py`: linear interpolation with the two
fatal sanity checks (result above both endpoints, result below both
endpoints).  The `isinstance` guard of the source is vacuous here because the
embedding types both endpoints as numbers. -/
def extrapolate_number (from_number to_number : ℚ)
    (scene_transition_progress_percent : ℚ) : Except Unit ℤ :=
  let difference := to_number - from_number
  let current_transition_difference :=
    difference * scene_transition_progress_percent / 100
  let final_transition_value :=
    pyRound (from_number + current_transition_difference)
  if (final_transition_value : ℚ) > from_number
      ∧ (final_transition_value : ℚ) > to_number then
    Except.error ()
  else if (final_transition_value : ℚ) < from_number
      ∧ (final_transition_value : ℚ) < to_number then
    Except.error ()
  else
    Except.ok final_transition_value

/-- `extrapolate_brightness` from `scene.py`: interpolate with default 0 for
a missing side, then apply the brightness modifier multiplicatively
(Python `int`-truncated) and clamp to `[0, 255]`. -/
def extrapolate_brightness (from_entity to_entity : EntityAttrs)
    (scene_transition_progress_percent brightness_modifier : ℚ) :
    Except Unit ℤ :=
  let from_brightness := from_entity.brightness.getD 0
  let to_brightness := to_entity.brightness.getD 0
  match extrapolate_number from_brightness to_brightness
      scene_transition_progress_percent with
  | Except.error e => Except.error e
  | Except.ok final_brightness =>
    if brightness_modifier ≠ 0 then
      let modifier_factor := 1 + brightness_modifier / 100
      let modified := pyTrunc ((final_brightness : ℚ) * modifier_factor)
      Except.ok (max 0 (min 255 modified))
    else
      Except.ok final_brightness

/-- `extrapolate_state` from `scene.py`: threshold selection between the two
discrete states, borrowing the other side's value when one is missing;
`none` models the `KeyError` when both sides lack a state. -/
def extrapolate_state (from_entity to_entity : EntityAttrs)
    (scene_transition_progress_percent : ℚ) : Option String :=
  match from_entity.state, to_entity.state with
  | some from_state, some to_state =>
    some (if scene_transition_progress_percent ≤ 50 then from_state
          else to_state)
  | some from_state, none => some from_state
  | none, some to_state => some to_state
  | none, none => none

/-- `extrapolate_effect` from `scene.py`: threshold selection between the two
effects; note the strict `< 50` comparison, unlike `extrapolate_state`. -/
def extrapolate_effect (from_entity to_entity : EntityAttrs)
    (scene_transition_progress_percent : ℚ) : Option String :=
  match from_entity.effect, to_entity.effect with
  | some from_effect, some to_effect =>
    some (if scene_transition_progress_percent < 50 then from_effect
          else to_effect)
  | some from_effect, none => some from_effect
  | none, some to_effect => some to_effect
  | none, none => none

/-- `extrapolate_temp_kelvin` from `scene.py`: borrow the other side's value
for a missing side, then interpolate through `extrapolate_number`;
`Except.error` with both sides missing models the `KeyError`. -/
def extrapolate_temp_kelvin (from_entity to_entity : EntityAttrs)
    (scene_transition_progress_percent : ℚ) : Except Unit ℤ :=
  match from_entity.color_temp_kelvin, to_entity.color_temp_kelvin with
  | some f, some t => extrapolate_number f t scene_transition_progress_percent
  | some f, none => extrapolate_number f f scene_transition_progress_percent
  | none, some t => extrapolate_number t t scene_transition_progress_percent
  | none, none => Except.error ()

/-- `extrapolate_rgb` from `scene.py`. -/
def extrapolate_rgb (from_entity to_entity : EntityAttrs)
    (scene_transition_progress_percent : ℚ) : Option (List ℤ) :=
  match from_entity.rgb_color, to_entity.rgb_color with
  | none, none => none
  | f?, t? =>
    let from_rgb := f?.getD (t?.getD (0, 0, 0))
    let to_rgb := t?.getD (f?.getD (0, 0, 0))
    some [extrapolate_value from_rgb.1 to_rgb.1
            scene_transition_progress_percent,
          extrapolate_value from_rgb.2.1 to_rgb.2.1
            scene_transition_progress_percent,
          extrapolate_value from_rgb.2.2 to_rgb.2.2
            scene_transition_progress_percent]

/-- `extrapolate_hs` from `scene.py`. -/
def extrapolate_hs (from_entity to_entity : EntityAttrs)
    (scene_transition_progress_percent : ℚ) : Option (List ℤ) :=
  match from_entity.hs_color, to_entity.hs_color with
  | none, none => none
  | f?, t? =>
    let from_hs := f?.getD (t?.getD (0, 0))
    let to_hs := t?.getD (f?.getD (0, 0))
    some [extrapolate_value from_hs.1 to_hs.1
            scene_transition_progress_percent,
          extrapolate_value from_hs.2 to_hs.2
            scene_transition_progress_percent]

/-- `extrapolate_rgbw` from `scene.py`. -/
def extrapolate_rgbw (from_entity to_entity : EntityAttrs)
    (scene_transition_progress_percent : ℚ) : Option (List ℤ) :=
  match from_entity.rgbw_color, to_entity.rgbw_color with
  | none, none => none
  | f?, t? =>
    let from_rgbw := f?.getD (t?.getD (0, 0, 0, 0))
    let to_rgbw := t?.getD (f?.getD (0, 0, 0, 0))
    some [extrapolate_value from_rgbw.1 to_rgbw.1
            scene_transition_progress_percent,
          extrapolate_value from_rgbw.2.1 to_rgbw.2.1
            scene_transition_progress_percent,
          extrapolate_value from_rgbw.2.2.1 to_rgbw.2.2.1
            scene_transition_progress_percent,
          extrapolate_value from_rgbw.2.2.2 to_rgbw.2.2.2
            scene_transition_progress_percent]

/-- `extrapolate_rgbww` from `scene.py`. -/
def extrapolate_rgbww (from_entity to_entity : EntityAttrs)
    (scene_transition_progress_percent : ℚ) : Option (List ℤ) :=
  match from_entity.rgbww_color, to_entity.rgbww_color with
  | none, none => none
  | f?, t? =>
    let from_rgbww := f?.getD (t?.getD (0, 0, 0, 0, 0))
    let to_rgbww := t?.getD (f?.getD (0, 0, 0, 0, 0))
    some [extrapolate_value from_rgbww.1 to_rgbww.1
            scene_transition_progress_percent,
          extrapolate_value from_rgbww.2.1 to_rgbww.2.1
            scene_transition_progress_percent,
          extrapolate_value from_rgbww.2.2.1 to_rgbww.2.2.1
            scene_transition_progress_percent,
          extrapolate_value from_rgbww.2.2.2.1 to_rgbww.2.2.2.1
            scene_transition_progress_percent,
          extrapolate_value from_rgbww.2.2.2.2 to_rgbww.2.2.2.2
            scene_transition_progress_percent]

/-- Definition following the spec's words (claim C8): the alternative
channel formula `abs(from - abs(from - to) * progress / 100)` which the spec
asserts is what `extrapolate_value` computes, rounded the same way. -/
def specChannelFormula (from_value to_value progress : ℚ) : ℤ :=
  pyRound |from_value - |from_value - to_value| * progress / 100|

/-- `ExtrapolationScene._calculate_time_shift_from_transition_modifier` from
`scene.py` (leading underscore dropped): converts the signed transition
modifier percentage into a signed second offset.  The source reads the
current time via `self.seconds_since_midnight(0)`; here it is passed as the
`current_time` parameter.  `sun_events` models the Python dict (key to
event); a missing noon/dawn/dusk yields 0 as in the source. -/
def calculate_time_shift_from_transition_modifier {α : Type}
    (transition_modifier current_time : ℚ)
    (sun_events : List (String × SunEvent α)) : ℤ :=
  if transition_modifier = 0 then 0
  else
    match sun_events.lookup "noon", sun_events.lookup "dawn",
        sun_events.lookup "dusk" with
    | some noon_event, some dawn_event, some dusk_event =>
      let noon_time := noon_event.start_time
      let target_time :=
        if transition_modifier > 0 then noon_time
        else if current_time < noon_time then dawn_event.start_time
        else dusk_event.start_time
      let time_difference := target_time - current_time
      let modifier_percent := |transition_modifier|
      pyTrunc (time_difference * modifier_percent / 100)
    | _, _, _ => 0

/-- Concrete dawn event (start 0) for the time-shift examples. -/
def dawnDemoEv : SunEvent Unit :=
  { name := "Dawn", start_time := 0, scene := emptyScene }

/-- Concrete noon event (start 3) for the time-shift examples. -/
def noonDemoEv : SunEvent Unit :=
  { name := "Noon", start_time := 3, scene := emptyScene }

/-- Concrete dusk event (start 5) for the time-shift examples. -/
def duskDemoEv : SunEvent Unit :=
  { name := "Dusk", start_time := 5, scene := emptyScene }

/-- A small concrete timeline used to exercise the time-shift resolver. -/
def demoSunEvents : List (String × SunEvent Unit) :=
  [("dawn", dawnDemoEv), ("noon", noonDemoEv), ("dusk", duskDemoEv)]

/-- The `sorted_sun_events` list computed by
`ExtrapolationScene.get_sun_event`: the events sorted ascending by
`start_time` (Python `sorted` is a stable merge sort). -/
def sortedSunEvents {α : Type} (sun_events : List (SunEvent α)) :
    List (SunEvent α) :=
  sun_events.mergeSort (fun a b => decide (a.start_time ≤ b.start_time))

/-- `ExtrapolationScene.get_sun_event` from `scene.py`: the current sun
event for a time of day (`offset = 0`), or a following one (`offset = 1` for
the next event).  Scans the sorted events for the first whose start time is
at or after the given time; the current event is the one before it, with
Python's negative-index/modulo semantics providing the wraparound.  The
result is `none` only for an empty event list (where Python would raise
`ZeroDivisionError` on the final modulo). -/
def get_sun_event {α : Type} (sun_events : List (SunEvent α))
    (seconds_since_midnight : ℚ) (offset : ℤ) : Option (SunEvent α) :=
  let sorted_sun_events := sortedSunEvents sun_events
  let closest_match_index : ℤ :=
    match sorted_sun_events.findIdx?
        (fun e => decide (seconds_since_midnight ≤ e.start_time)) with
    | some index => (index : ℤ) - 1
    | none => (sorted_sun_events.length : ℤ) - 1
  let offset_index := closest_match_index + offset
  sorted_sun_events[(offset_index %
    (sorted_sun_events.length : ℤ)).toNat]?

/-- Concrete event at 100 seconds for the event-locator examples. -/
def evA : SunEvent Unit :=
  { name := "A", start_time := 100, scene := emptyScene }

/-- Concrete event at 200 seconds for the event-locator examples. -/
def evB : SunEvent Unit :=
  { name := "B", start_time := 200, scene := emptyScene }

/-- The astral events available for one activation, as seconds offset from
the target date's midnight (a value may exceed 86400 when fallback chaining
pushes an event past midnight).  `async_activate` calls `astral.sun.sun`,
which either yields all five events or raises `ValueError`, in which case the
dict starts empty; the missing-event loop also supports partially filled
dicts, so the model keeps one `Option` per event. -/
structure SolarEventsInput where
  dawn : Option ℚ
  sunrise : Option ℚ
  noon : Option ℚ
  sunset : Option ℚ
  dusk : Option ℚ
  deriving Repr, DecidableEq

/-- The missing-event fallback loop of `async_activate` (lines 430-486):
events are processed in order dawn, sunrise, noon, sunset, dusk; a missing
event becomes the seasonal fallback, or, when it has a previous event, the
later of the previous event's (already filled) time plus 30 minutes and the
seasonal fallback.  The seasonal table is selected by `is_winter` (hemisphere
and month).  Times are seconds offset from the target date's midnight. -/
def fill_solar_events (inp : SolarEventsInput) (is_winter : Bool) :
    ℚ × ℚ × ℚ × ℚ × ℚ :=
  let fb : ℚ → ℚ → ℚ := fun w s => if is_winter then w else s
  let dawn := inp.dawn.getD (fb 31500 8100)
  let sunrise := inp.sunrise.getD (max (dawn + 1800) (fb 37800 14400))
  let noon := inp.noon.getD (max (sunrise + 1800) (fb 43200 46800))
  let sunset := inp.sunset.getD (max (noon + 1800) (fb 46800 79200))
  let dusk := inp.dusk.getD (max (sunset + 1800) (fb 79200 86100))
  (dawn, sunrise, noon, sunset, dusk)

/-- The five `SunEvent.start_time` values built by `async_activate` (lines
496-553): each filled event time is converted with
`datetime_to_seconds_since_midnight` (i.e. reduced modulo 86400 relative to
its own day's midnight), and dusk is clamped upward to the configured
minimum. -/
def sun_event_start_times (inp : SolarEventsInput) (is_winter : Bool)
    (scene_dusk_minimum_time_of_day : ℚ) : ℚ × ℚ × ℚ × ℚ × ℚ :=
  match fill_solar_events inp is_winter with
  | (dawn, sunrise, noon, sunset, dusk) =>
    (pymod dawn 86400, pymod sunrise 86400, pymod noon 86400,
     pymod sunset 86400,
     max (pymod dusk 86400) scene_dusk_minimum_time_of_day)

/-- The ordering invariant of spec section 8 on a five-tuple of start
times. -/
def orderedTimeline (t : ℚ × ℚ × ℚ × ℚ × ℚ) : Prop :=
  t.1 ≤ t.2.1 ∧ t.2.1 ≤ t.2.2.1 ∧ t.2.2.1 ≤ t.2.2.2.1
    ∧ t.2.2.2.1 ≤ t.2.2.2.2

/-- `homeassistant.const.STATE_OFF`. -/
def STATE_OFF : String := "off"

/-- `homeassistant.const.STATE_UNAVAILABLE`. -/
def STATE_UNAVAILABLE : String := "unavailable"

/-- `homeassistant.const.STATE_UNKNOWN`. -/
def STATE_UNKNOWN : String := "unknown"

/-- `homeassistant.const.STATE_PROBLEM`. -/
def STATE_PROBLEM : String := "problem"

/-- `homeassistant.components.lock.LockState.JAMMED`. -/
def LOCK_JAMMED : String := "jammed"

/-- Lifts an optional value into the error monad: `none` models a Python
`KeyError`. -/
def liftOption {β : Type} (o : Option β) : Except Unit β :=
  match o with
  | some v => Except.ok v
  | none => Except.error ()

/-- The synthetic record the source substitutes for an entity missing from
one snapshot. -/
def offEntity : EntityAttrs := { state := some STATE_OFF }

/-- The `final_entity` record assembled by `process_entity_extrapolation`:
one device update.  Channel lists hold the rounded channel values. -/
structure FinalEntity where
  entity_id : String
  state : Option String := none
  brightness : Option ℤ := none
  color_temp_kelvin : Option ℤ := none
  rgb_color : Option (List ℤ) := none
  hs_color : Option (List ℤ) := none
  rgbw_color : Option (List ℤ) := none
  rgbww_color : Option (List ℤ) := none
  effect : Option String := none
  deriving Repr, DecidableEq

/-- The color-mode borrow of `process_entity_extrapolation` (scene.py lines
1068-1071): if exactly one side lacks a color mode it adopts the other
side's.  In the source these are in-place writes through `from_entity` and
`to_entity`, which alias the caller's scene dicts; the model returns the
updated pair, and `extrapolate_entities` applies the same function to the
scene maps it returns. -/
def color_mode_borrow (from_entity to_entity : EntityAttrs) :
    EntityAttrs × EntityAttrs :=
  if from_entity.color_mode = none ∧ to_entity.color_mode ≠ none then
    ({ from_entity with color_mode := to_entity.color_mode }, to_entity)
  else if to_entity.color_mode = none ∧ from_entity.color_mode ≠ none then
    (from_entity, { to_entity with color_mode := from_entity.color_mode })
  else
    (from_entity, to_entity)

/-- The net effect of one `process_entity_extrapolation` call on the two
aliased entity records: both `return None` guards (unavailable on either
side, missing state) run before the color-mode borrow and leave the records
untouched; otherwise the borrow's writes land in the caller's dicts.  No
code after the borrow writes into the scene dicts (the update record
`final_entity` is a fresh dict), even when a later step raises. -/
def entity_dicts_after_process (from_entity to_entity : EntityAttrs) :
    EntityAttrs × EntityAttrs :=
  if from_entity.state = some STATE_UNAVAILABLE
      ∨ to_entity.state = some STATE_UNAVAILABLE then
    (from_entity, to_entity)
  else if from_entity.state = none ∨ to_entity.state = none then
    (from_entity, to_entity)
  else
    color_mode_borrow from_entity to_entity

/-- The inner coroutine `process_entity_extrapolation` of
`extrapolate_entities` (lines 1022-1142 of `scene.py`): extrapolates one
entity between the two scenes.  `Except.ok none` models the `return None`
paths (unavailable entity, missing state); `Except.error` models an
uncaught exception (`KeyError`, or `extrapolate_number`'s fatal
`HomeAssistantError`), which `asyncio.gather(return_exceptions=True)`
captures so that the entity produces no service call.  The in-place writes
of the color-mode borrow are visible to the caller through the scenes
returned by `extrapolate_entities`. -/
def process_entity_extrapolation
    (from_scene to_scene : Scene EntityAttrs) (from_entity_id : String)
    (scene_transition_progress_percent brightness_modifier : ℚ) :
    Except Unit (Option FinalEntity) := do
  let from_entity ← liftOption (from_scene.entities.lookup from_entity_id)
  let to_entity :=
    (to_scene.entities.lookup from_entity_id).getD offEntity
  if from_entity.state = some STATE_UNAVAILABLE
      ∨ to_entity.state = some STATE_UNAVAILABLE then
    return none
  if from_entity.state = none ∨ to_entity.state = none then
    return none
  let final_state :=
    extrapolate_state from_entity to_entity
      scene_transition_progress_percent
  let borrowed := color_mode_borrow from_entity to_entity
  let from_entity := borrowed.1
  let to_entity := borrowed.2
  let final_color_mode :=
    if from_entity.color_mode ≠ none ∨ to_entity.color_mode ≠ none then
      (if scene_transition_progress_percent ≥ 50 then to_entity.color_mode
       else from_entity.color_mode)
    else none
  let final_brightness ←
    if from_entity.brightness ≠ none ∨ to_entity.brightness ≠ none then
      Except.map some (extrapolate_brightness from_entity to_entity
        scene_transition_progress_percent brightness_modifier)
    else pure none
  let final_color_temp_kelvin ←
    if final_color_mode = some "color_temp"
        ∨ final_color_mode = some "color_temp_kelvin" then
      Except.map some (extrapolate_temp_kelvin from_entity to_entity
        scene_transition_progress_percent)
    else pure none
  let final_rgb ←
    if final_color_mode = some "rgb_color" then
      Except.map some (liftOption (extrapolate_rgb from_entity to_entity
        scene_transition_progress_percent))
    else pure none
  let final_hs ←
    if final_color_mode = some "hs" then
      Except.map some (liftOption (extrapolate_hs from_entity to_entity
        scene_transition_progress_percent))
    else pure none
  let final_rgbw ←
    if final_color_mode = some "rgbw" then
      Except.map some (liftOption (extrapolate_rgbw from_entity to_entity
        scene_transition_progress_percent))
    else pure none
  let final_rgbww ←
    if final_color_mode = some "rgbww" then
      Except.map some (liftOption (extrapolate_rgbww from_entity to_entity
        scene_transition_progress_percent))
    else pure none
  let final_effect :=
    if from_entity.effect ≠ none ∨ to_entity.effect ≠ none then
      extrapolate_effect from_entity to_entity
        scene_transition_progress_percent
    else none
  return some
    { entity_id := from_entity_id
      state := final_state
      brightness := final_brightness
      color_temp_kelvin := final_color_temp_kelvin
      rgb_color := final_rgb
      hs_color := final_hs
      rgbw_color := final_rgbw
      rgbww_color := final_rgbww
      effect := final_effect }

/-- The entity id's domain: Python `entity_id.split(".")[0]`. -/
def entity_domain (entity_id : String) : String :=
  (entity_id.splitOn ".").headD ""

/-- One host service call produced by `apply_single_entity`: the target
domain, the selected service (possibly `none` for an unrecognized state),
the attribute record sent (state stripped; for a light turn-off only the
entity id), and the transition time attached for light entities. -/
structure ServiceCall where
  domain : String
  service : Option String
  data : FinalEntity
  transition : Option ℚ
  deriving Repr, DecidableEq

/-- `apply_single_entity` from `scene.py` (lines 892-967), reduced to its
dispatch decision: `none` means no host service call is made (missing or
unavailable/unknown/problem/jammed state — the source logs and returns);
`some` carries the call that is attempted.  Failures of the host call itself
are logged and swallowed by the source and do not change the decision. -/
def apply_single_entity (entity : FinalEntity) (transition_time : ℚ) :
    Option ServiceCall :=
  let domain := entity_domain entity.entity_id
  match entity.state with
  | none => none
  | some state =>
    if state = STATE_UNAVAILABLE ∨ state = STATE_UNKNOWN
        ∨ state = STATE_PROBLEM ∨ state = LOCK_JAMMED then
      none
    else
      let service_type : Option String :=
        if state = "on" then some "turn_on"
        else if state = "off" then some "turn_off"
        else if state = "locked" ∨ state = "locking" then some "lock"
        else if state = "unlocked" ∨ state = "unlocking" then some "unlock"
        else if state = "open" ∨ state = "opening" then
          (if domain = "cover" then some "open_cover"
           else if domain = "valve" then some "open_valve"
           else some "turn_on")
        else if state = "closed" ∨ state = "closing" then
          (if domain = "cover" then some "close_cover"
           else if domain = "valve" then some "close_valve"
           else some "turn_off")
        else none
      let entity_applied :=
        if domain = "light" ∧ service_type = some "turn_off" then
          ({ entity_id := entity.entity_id } : FinalEntity)
        else { entity with state := none }
      some { domain := domain, service := service_type,
             data := entity_applied,
             transition :=
               if domain = "light" then some transition_time else none }

/-- The synthesis loop at the top of `extrapolate_entities` (lines
1006-1016): every entity present in `to_scene` but missing from
`from_scene` is inserted into the caller's `from_scene` entity map with a
synthetic off record.  The check is against the updated map, mirroring the
Python dict. -/
def synthesize_from_entities (from_scene to_scene : Scene EntityAttrs) :
    Scene EntityAttrs :=
  { from_scene with
      entities := to_scene.entities.foldl
        (fun acc pr =>
          if (acc.lookup pr.1).isSome then acc
          else acc ++ [(pr.1, offEntity)])
        from_scene.entities }

/-- `extrapolate_entities` from `scene.py`, modelled with explicit state
passing: returns the caller-visible post-call state of both scenes together
with the list of device updates that reach `apply_entities_parallel`.  The
post-call from-scene carries the synthesized off-records and, per entity,
the from-side effect of the color-mode borrow (`process_entity_extrapolation`
reads and writes the scene dicts through aliases); the post-call to-scene
carries the to-side borrow for every entity it shares with the (synthesized)
from-scene — which is all of them, since synthesis copies every to-id into
the from-scene.  The two scenes are modelled as separate values; the source
could be handed the same scene object for both events, an aliasing the value
model does not capture.  Per-entity exceptions are captured by
`asyncio.gather(return_exceptions=True)` and produce no service call (the
captured exception object crashes `apply_single_entity` inside the second,
also exception-swallowing, gather), so the update list keeps exactly the
`ok some` results, in iteration order. -/
def extrapolate_entities (from_scene to_scene : Scene EntityAttrs)
    (scene_transition_progress_percent brightness_modifier : ℚ) :
    (Scene EntityAttrs × Scene EntityAttrs) × List FinalEntity :=
  let from_scene := synthesize_from_entities from_scene to_scene
  let results := from_scene.entities.map
    (fun pr => process_entity_extrapolation from_scene to_scene pr.1
      scene_transition_progress_percent brightness_modifier)
  let entity_changes := results.filterMap
    (fun r =>
      match r with
      | Except.ok (some e) => some e
      | _ => none)
  let from_scene_after :=
    { from_scene with
        entities := from_scene.entities.map
          (fun pr => (pr.1,
            (entity_dicts_after_process pr.2
              ((to_scene.entities.lookup pr.1).getD offEntity)).1)) }
  let to_scene_after :=
    { to_scene with
        entities := to_scene.entities.map
          (fun pr => (pr.1,
            (entity_dicts_after_process
              ((from_scene.entities.lookup pr.1).getD offEntity) pr.2).2)) }
  ((from_scene_after, to_scene_after), entity_changes)

/-- From-scene with a single `on` light carrying no color mode, for the
mutation examples. -/
def fromMutScene : Scene EntityAttrs :=
  { entity_id := "scene.from"
    entities := [("light.a", { state := some "on" })] }

/-- To-scene whose shared entity carries a color mode and which contains an
extra entity `light.b`, for the mutation examples. -/
def toMutScene : Scene EntityAttrs :=
  { entity_id := "scene.to"
    entities := [("light.a", { state := some "on",
                               color_mode := some "hs" }),
                 ("light.b", { state := some "on",
                               color_mode := some "rgb_color" })] }

/-- From-scene whose only entity is in state `unknown`. -/
def fromUnknownScene : Scene EntityAttrs :=
  { entity_id := "scene.from_unknown"
    entities := [("switch.a", { state := some "unknown" })] }

/-- To-scene whose only entity is in state `on`. -/
def toOnScene : Scene EntityAttrs :=
  { entity_id := "scene.to_on"
    entities := [("switch.a", { state := some "on" })] }

/-- From-scene whose only entity is in state `unavailable`. -/
def fromUnavailScene : Scene EntityAttrs :=
  { entity_id := "scene.from_unavail"
    entities := [("light.u", { state := some "unavailable" })] }

/-- To-scene pairing the unavailable entity with state `on`. -/
def toUnavailTargetScene : Scene EntityAttrs :=
  { entity_id := "scene.to_unavail"
    entities := [("light.u", { state := some "on" })] }

theorem pymod_nonneg (a : ℚ) {b : ℚ} (hb : 0 < b) : 0 ≤ pymod a b := by
  have h := Int.floor_le (a / b)
  have : b * ⌊a / b⌋ ≤ b * (a / b) := by
    exact mul_le_mul_of_nonneg_left h (le_of_lt hb)
  rw [mul_div_cancel₀ a (ne_of_gt hb)] at this
  simpa [pymod] using this

theorem pymod_lt (a : ℚ) {b : ℚ} (hb : 0 < b) : pymod a b < b := by
  have h := Int.lt_floor_add_one (a / b)
  have h2 : a / b * b < (⌊a / b⌋ + 1 : ℚ) * b := mul_lt_mul_of_pos_right h hb
  rw [div_mul_cancel₀ a (ne_of_gt hb)] at h2
  simp only [pymod]
  nlinarith

theorem pymod_eq_self {a b : ℚ} (h0 : 0 ≤ a) (hb : 0 < b) (hab : a < b) :
    pymod a b = a := by
  have hfloor : ⌊a / b⌋ = 0 := by
    rw [Int.floor_eq_zero_iff]
    constructor
    · exact div_nonneg h0 (le_of_lt hb)
    · rw [div_lt_one hb] at *
      simpa using hab
  simp [pymod, hfloor]

theorem pyRound_ge_floor (q : ℚ) : ⌊q⌋ ≤ pyRound q := by
  unfold pyRound
  split_ifs
  · exact le_refl _
  · omega
  · exact Int.floor_le_floor (by linarith)

theorem pyRound_le_floor_add_one (q : ℚ) : pyRound q ≤ ⌊q⌋ + 1 := by
  unfold pyRound
  split_ifs
  · omega
  · omega
  · have h1 : (q + 1/2 : ℚ) < ⌊q⌋ + 2 := by
      have := Int.lt_floor_add_one q
      linarith
    have h2 : ⌊(q + 1/2 : ℚ)⌋ < ⌊q⌋ + 2 := by
      rw [Int.floor_lt]
      push_cast at h1 ⊢
      linarith
    omega

theorem pyRound_intCast (n : ℤ) : pyRound (n : ℚ) = n := by
  unfold pyRound
  rw [Int.floor_intCast, if_neg (by norm_num), Int.floor_int_add]
  norm_num

/-- A value between two integer bounds stays between them after Python
rounding. -/
theorem pyRound_mem_Icc {a b : ℤ} {q : ℚ} (h1 : (a : ℚ) ≤ q) (h2 : q ≤ b) :
    a ≤ pyRound q ∧ pyRound q ≤ b := by
  constructor
  · exact le_trans (Int.le_floor.mpr h1) (pyRound_ge_floor q)
  · rcases eq_or_lt_of_le h2 with heq | hlt
    · rw [heq, pyRound_intCast]
    · have hfl : ⌊q⌋ < b := Int.floor_lt.mpr hlt
      have := pyRound_le_floor_add_one q
      omega

theorem transition_progress_value_eq_claim {α : Type}
    (cur next : SunEvent α) (s : ℚ) :
    transition_progress_value cur next s
      = claimProgressFormula cur.start_time next.start_time s := by
  simp only [transition_progress_value, claimProgressFormula]
  split_ifs <;> ring

/-- C1: `get_scene_transition_progress_percent` first reduces the time modulo
86400 and then computes span and remaining exactly as the spec describes
(midnight-straddling branch included), returning `100 * (span - remaining) /
span` with a zero span yielding 0; every value it returns equals that
formula, and on the worked example (current 23:00, next 00:30, at 23:30) it
returns `100 * 1800 / 5400`. -/
theorem C1_progress_follows_claim_formula :
    (∀ (cur next : SunEvent Unit) (s v : ℚ),
        get_scene_transition_progress_percent cur next s = Except.ok v →
        v = claimProgressFormula cur.start_time next.start_time s)
    ∧ get_scene_transition_progress_percent duskDemo dawnDemo 84600
        = Except.ok (100 * 1800 / 5400) := by
  constructor
  · intro cur next s v h
    simp only [get_scene_transition_progress_percent] at h
    split at h
    · exact Except.noConfusion h
    · obtain rfl := Except.ok.inj h
      exact transition_progress_value_eq_claim cur next s
  · norm_num [get_scene_transition_progress_percent,
      transition_progress_value, duskDemo, dawnDemo, pymod, emptyScene]

/-- Witness for C1 at the worked example: the claim formula evaluates to the
value the code returns there. -/
theorem C1_progress_follows_claim_formula_witness :
    (100 * 1800 / 5400 : ℚ) = claimProgressFormula 82800 1800 84600 :=
  C1_progress_follows_claim_formula.1 duskDemo dawnDemo 84600 _
    C1_progress_follows_claim_formula.2

/-- C2 counterexample: with `current.start_time = 82800`, `next.start_time =
1800` (both in `[0, 86400)` and distinct) and `atSeconds = 50000`, the
function raises its fatal diagnostic instead of returning a value in
`[0, 100]`: the claim that the error branch is unreachable for all
`atSeconds` is false. -/
theorem C2_progress_bounds_counterexample :
    get_scene_transition_progress_percent duskDemo dawnDemo 50000
      = Except.error () := by
  norm_num [get_scene_transition_progress_percent,
    transition_progress_value, duskDemo, dawnDemo, pymod, emptyScene]

/-- C2 (amended): `get_scene_transition_progress_percent` returns (does not
raise) a value in `[0, 100]` for start times in `[0, 86400)` with
`current.start_time ≠ next.start_time`, provided `atSeconds` reduced modulo
86400 lies inside the transition window: between the two start times when
`current < next`, and at-or-after `current` or strictly before `next` when
the pair straddles midnight.  Outside that window the fatal branch is
reachable (see the counterexample). -/
theorem C2_progress_bounds_within_window
    (cur next : SunEvent Unit) (s : ℚ)
    (hc1 : cur.start_time < 86400)
    (hn0 : 0 ≤ next.start_time)
    (hne : cur.start_time ≠ next.start_time)
    (hwin1 : cur.start_time < next.start_time →
      cur.start_time ≤ pymod s 86400 ∧ pymod s 86400 ≤ next.start_time)
    (hwin2 : next.start_time < cur.start_time →
      cur.start_time ≤ pymod s 86400 ∨ pymod s 86400 < next.start_time) :
    ∃ v, get_scene_transition_progress_percent cur next s = Except.ok v ∧
      0 ≤ v ∧ v ≤ 100 := by
  have ha0 : 0 ≤ pymod s 86400 := pymod_nonneg s (by norm_num)
  have ha1 : pymod s 86400 < 86400 := pymod_lt s (by norm_num)
  set a := pymod s 86400 with ha
  have hbounds : 0 ≤ transition_progress_value cur next s ∧
      transition_progress_value cur next s ≤ 100 := by
    simp only [transition_progress_value, ← ha]
    rcases lt_or_gt_of_ne hne with hlt | hgt
    · obtain ⟨hw1, hw2⟩ := hwin1 hlt
      have hcross : ¬(cur.start_time > next.start_time) := not_lt.mpr hlt.le
      have hspan : 0 < next.start_time - cur.start_time := by linarith
      simp only [if_neg hcross, if_neg (ne_of_gt hspan)]
      constructor
      · apply div_nonneg _ hspan.le
        nlinarith
      · rw [div_le_iff₀ hspan]
        nlinarith
    · have hcross : cur.start_time > next.start_time := hgt
      have hspan : 0 < 86400 - cur.start_time + next.start_time := by linarith
      simp only [if_pos hcross, if_neg (ne_of_gt hspan)]
      by_cases hlt2 : a < next.start_time
      · simp only [if_pos hlt2]
        constructor
        · apply div_nonneg _ hspan.le
          nlinarith
        · rw [div_le_iff₀ hspan]
          nlinarith
      · have hcur : cur.start_time ≤ a := by
          rcases hwin2 hcross with h | h
          · exact h
          · exact absurd h hlt2
        simp only [if_neg hlt2]
        constructor
        · apply div_nonneg _ hspan.le
          nlinarith
        · rw [div_le_iff₀ hspan]
          nlinarith
  refine ⟨transition_progress_value cur next s, ?_, hbounds.1, hbounds.2⟩
  simp only [get_scene_transition_progress_percent]
  rw [if_neg]
  push_neg
  exact ⟨hbounds.1, hbounds.2⟩

/-- Witness for C2 at the worked example (23:00 → 00:30, at 23:30, inside
the window): the function returns a value in `[0, 100]`. -/
theorem C2_progress_bounds_within_window_witness :
    ∃ v, get_scene_transition_progress_percent duskDemo dawnDemo 84600
      = Except.ok v ∧ 0 ≤ v ∧ v ≤ 100 :=
  C2_progress_bounds_within_window duskDemo dawnDemo 84600
    (by norm_num [duskDemo]) (by norm_num [dawnDemo])
    (by norm_num [duskDemo, dawnDemo])
    (by norm_num [duskDemo, dawnDemo])
    (by intro _; left; norm_num [duskDemo, pymod])

/-- C8 counterexample: at `from = 10`, `to = 20`, `progress = 50` the
implementation returns 15 (the linear interpolation) while the spec's
channel formula evaluates to 5: the two formulas are not equivalent for all
non-negative channel values. -/
theorem C8_channel_formula_counterexample :
    extrapolate_value 10 20 50 = 15 ∧ specChannelFormula 10 20 50 = 5 := by
  constructor
  · norm_num [extrapolate_value, pyRound]
  · norm_num [specChannelFormula, pyRound]

/-- C8 (amended): the spec's channel formula agrees with the implemented
linear interpolation for progress in `[0, 100]` whenever the channel values
are non-negative and `from ≥ to`; for `from < to` they disagree (see the
counterexample). -/
theorem C8_channel_formula_equiv_of_ge (a b p : ℚ)
    (hp0 : 0 ≤ p) (hp1 : p ≤ 100) (hb : 0 ≤ b) (hba : b ≤ a) :
    specChannelFormula a b p = extrapolate_value a b p := by
  unfold specChannelFormula extrapolate_value
  rw [abs_of_nonneg (show (0:ℚ) ≤ a - b by linarith)]
  rw [abs_of_nonneg (show (0:ℚ) ≤ a - (a - b) * p / 100 by nlinarith)]
  congr 1
  ring

/-- Witness for C8 at `from = 20`, `to = 10`, `progress = 25`. -/
theorem C8_channel_formula_equiv_of_ge_witness :
    specChannelFormula 20 10 25 = extrapolate_value 20 10 25 :=
  C8_channel_formula_equiv_of_ge 20 10 25 (by norm_num) (by norm_num)
    (by norm_num) (by norm_num)

/-- C9 counterexample: at exactly `progress = 50`, `extrapolate_effect`
returns the to side's effect (its comparison is the strict `< 50`), while
the claim says the from side's effect is returned for `progress ≤ 50`. -/
theorem C9_effect_threshold_counterexample :
    extrapolate_effect { effect := some "rainbow" } { effect := some "strobe" }
      50 = some "strobe" ∧ ("strobe" : String) ≠ "rainbow" := by
  constructor
  · norm_num [extrapolate_effect]
  · decide

/-- C9 (amended): for entities carrying the attribute on both sides,
`extrapolate_state` returns the from state iff `progress ≤ 50`, while
`extrapolate_effect` uses the strict threshold `progress < 50`: at exactly
50 the state still comes from the from side but the effect already comes
from the to side. -/
theorem C9_state_effect_thresholds (fe te : EntityAttrs) (p : ℚ)
    (fs ts fx tx : String)
    (hfs : fe.state = some fs) (hts : te.state = some ts)
    (hfx : fe.effect = some fx) (htx : te.effect = some tx) :
    extrapolate_state fe te p = some (if p ≤ 50 then fs else ts)
    ∧ extrapolate_effect fe te p = some (if p < 50 then fx else tx) := by
  unfold extrapolate_state extrapolate_effect
  rw [hfs, hts, hfx, htx]
  exact ⟨rfl, rfl⟩

/-- Witness for C9 at `progress = 50` with concrete states and effects. -/
theorem C9_state_effect_thresholds_witness :
    extrapolate_state { state := some "on", effect := some "rainbow" }
        { state := some "off", effect := some "strobe" } 50
      = some (if (50:ℚ) ≤ 50 then "on" else "off")
    ∧ extrapolate_effect { state := some "on", effect := some "rainbow" }
        { state := some "off", effect := some "strobe" } 50
      = some (if (50:ℚ) < 50 then "rainbow" else "strobe") :=
  C9_state_effect_thresholds _ _ 50 "on" "off" "rainbow" "strobe"
    rfl rfl rfl rfl

/-- C10: for integer endpoints and progress in `[0, 100]`,
`extrapolate_number` returns `round(from + (to - from) * progress / 100)`
without raising, and the result lies between `min from to` and
`max from to`; hence both fatal sanity-check branches are unreachable. -/
theorem C10_extrapolate_number_bounds (a b : ℤ) (p : ℚ)
    (hp0 : 0 ≤ p) (hp1 : p ≤ 100) :
    extrapolate_number a b p
      = Except.ok (pyRound ((a : ℚ) + ((b : ℚ) - (a : ℚ)) * p / 100))
    ∧ min a b ≤ pyRound ((a : ℚ) + ((b : ℚ) - (a : ℚ)) * p / 100)
    ∧ pyRound ((a : ℚ) + ((b : ℚ) - (a : ℚ)) * p / 100) ≤ max a b := by
  set x : ℚ := (a : ℚ) + ((b : ℚ) - (a : ℚ)) * p / 100 with hx
  have hxlo : ((min a b : ℤ) : ℚ) ≤ x := by
    rcases le_total a b with hab | hab
    · rw [min_eq_left hab, hx]
      have hab2 : (a : ℚ) ≤ (b : ℚ) := by exact_mod_cast hab
      nlinarith
    · rw [min_eq_right hab, hx]
      have hab2 : (b : ℚ) ≤ (a : ℚ) := by exact_mod_cast hab
      nlinarith
  have hxhi : x ≤ ((max a b : ℤ) : ℚ) := by
    rcases le_total a b with hab | hab
    · rw [max_eq_right hab, hx]
      have hab2 : (a : ℚ) ≤ (b : ℚ) := by exact_mod_cast hab
      nlinarith
    · rw [max_eq_left hab, hx]
      have hab2 : (b : ℚ) ≤ (a : ℚ) := by exact_mod_cast hab
      nlinarith
  obtain ⟨hlo, hhi⟩ := pyRound_mem_Icc hxlo hxhi
  refine ⟨?_, hlo, hhi⟩
  have hc1 : ¬((pyRound x : ℚ) > (a : ℚ) ∧ (pyRound x : ℚ) > (b : ℚ)) := by
    rintro ⟨h1, h2⟩
    have h1i : a < pyRound x := by exact_mod_cast h1
    have h2i : b < pyRound x := by exact_mod_cast h2
    have : max a b < pyRound x := max_lt h1i h2i
    omega
  have hc2 : ¬((pyRound x : ℚ) < (a : ℚ) ∧ (pyRound x : ℚ) < (b : ℚ)) := by
    rintro ⟨h1, h2⟩
    have h1i : pyRound x < a := by exact_mod_cast h1
    have h2i : pyRound x < b := by exact_mod_cast h2
    have : pyRound x < min a b := lt_min h1i h2i
    omega
  simp only [extrapolate_number, ← hx]
  rw [if_neg hc1, if_neg hc2]

/-- C5 counterexample: with noon at 3 seconds, `now = 0` and
`transitionModifier = 50`, the delta is 3 and
`delta * |modifier| / 100 = 1.5`; the code truncates with Python `int` and
returns 1, while the claim's `round` gives 2. -/
theorem C5_time_shift_counterexample :
    calculate_time_shift_from_transition_modifier 50 0 demoSunEvents = 1
    ∧ round ((3 - 0 : ℚ) * |(50 : ℚ)| / 100) = 2 := by
  constructor
  · simp only [calculate_time_shift_from_transition_modifier, demoSunEvents]
    simp [List.lookup, noonDemoEv, dawnDemoEv, duskDemoEv]
    norm_num [pyTrunc]
  · norm_num [round_eq]

/-- C5 (amended): the time shift is 0 when the transition modifier is 0;
otherwise the target is noon's start time for a positive modifier, dawn's
start time for a negative modifier before noon, else dusk's start time, and
the returned shift is `(target - now) * |modifier| / 100` truncated toward
zero by Python `int` — not rounded to nearest. -/
theorem C5_time_shift_formula (tm now : ℚ)
    (events : List (String × SunEvent Unit))
    (noonEv dawnEv duskEv : SunEvent Unit)
    (hn : events.lookup "noon" = some noonEv)
    (hd : events.lookup "dawn" = some dawnEv)
    (hk : events.lookup "dusk" = some duskEv) :
    calculate_time_shift_from_transition_modifier 0 now events = 0
    ∧ (tm ≠ 0 →
        calculate_time_shift_from_transition_modifier tm now events =
          pyTrunc (((if tm > 0 then noonEv.start_time
                     else if now < noonEv.start_time then dawnEv.start_time
                     else duskEv.start_time) - now) * |tm| / 100)) := by
  constructor
  · simp [calculate_time_shift_from_transition_modifier]
  · intro htm
    simp only [calculate_time_shift_from_transition_modifier, if_neg htm,
      hn, hd, hk]

/-- Witness for C5 on the concrete timeline with `modifier = 50`,
`now = 0`. -/
theorem C5_time_shift_formula_witness :
    calculate_time_shift_from_transition_modifier 0 0 demoSunEvents = 0
    ∧ ((50 : ℚ) ≠ 0 →
        calculate_time_shift_from_transition_modifier 50 0 demoSunEvents =
          pyTrunc (((if (50:ℚ) > 0 then noonDemoEv.start_time
                     else if (0:ℚ) < noonDemoEv.start_time
                     then dawnDemoEv.start_time
                     else duskDemoEv.start_time) - 0) * |(50:ℚ)| / 100)) :=
  C5_time_shift_formula 50 0 demoSunEvents noonDemoEv dawnDemoEv duskDemoEv
    rfl rfl rfl

/-- Witness for C10: `extrapolate_number 0 100 25` returns 25, inside
`[0, 100]`. -/
theorem C10_extrapolate_number_bounds_witness :
    extrapolate_number 0 100 25
      = Except.ok (pyRound ((0 : ℚ) + (((100 : ℤ) : ℚ) - ((0 : ℤ) : ℚ))
          * 25 / 100))
    ∧ min (0 : ℤ) 100 ≤ pyRound ((0 : ℚ) + (((100 : ℤ) : ℚ) - ((0 : ℤ) : ℚ))
          * 25 / 100)
    ∧ pyRound ((0 : ℚ) + (((100 : ℤ) : ℚ) - ((0 : ℤ) : ℚ)) * 25 / 100)
        ≤ max (0 : ℤ) 100 :=
  C10_extrapolate_number_bounds 0 100 25 (by norm_num) (by norm_num)

theorem sortedSunEvents_perm {α : Type} (events : List (SunEvent α)) :
    (sortedSunEvents events).Perm events :=
  List.mergeSort_perm events _

theorem sortedSunEvents_length {α : Type} (events : List (SunEvent α)) :
    (sortedSunEvents events).length = events.length :=
  List.length_mergeSort events

theorem mem_sortedSunEvents {α : Type} {e : SunEvent α}
    {events : List (SunEvent α)} :
    e ∈ sortedSunEvents events ↔ e ∈ events :=
  List.mem_mergeSort

theorem sortedSunEvents_pairwise {α : Type} (events : List (SunEvent α)) :
    (sortedSunEvents events).Pairwise
      (fun a b => a.start_time ≤ b.start_time) := by
  have h := @List.sorted_mergeSort (SunEvent α)
    (fun a b => decide (a.start_time ≤ b.start_time))
    (fun a b c hab hbc => by
      simp only [decide_eq_true_eq] at *
      exact le_trans hab hbc)
    (fun a b => by
      simp only [Bool.or_eq_true, decide_eq_true_eq]
      exact le_total a.start_time b.start_time)
    events
  exact List.Pairwise.imp (fun hab => by simpa using hab) h

theorem sortedSunEvents_mono {α : Type} (events : List (SunEvent α))
    {i j : ℕ} (hij : i ≤ j) (hj : j < (sortedSunEvents events).length) :
    ((sortedSunEvents events).get ⟨i, lt_of_le_of_lt hij hj⟩).start_time ≤
      ((sortedSunEvents events).get ⟨j, hj⟩).start_time := by
  rcases eq_or_lt_of_le hij with heq | hlt
  · subst heq
    exact le_refl _
  · simp only [List.get_eq_getElem]
    exact (List.pairwise_iff_getElem.mp (sortedSunEvents_pairwise events))
      i j (lt_of_le_of_lt hij hj) hj hlt

theorem get_sun_event_current_spec {α : Type} (events : List (SunEvent α))
    (s : ℚ) (hne : events ≠ []) :
    ∃ e, get_sun_event events s 0 = some e ∧ e ∈ events ∧
      ((∃ x ∈ events, x.start_time < s) →
        e.start_time < s ∧
          ∀ y ∈ events, y.start_time < s → y.start_time ≤ e.start_time) ∧
      ((∀ x ∈ events, s ≤ x.start_time) →
        ∀ y ∈ events, y.start_time ≤ e.start_time) := by
  have hlen := sortedSunEvents_length events
  have hn : 0 < (sortedSunEvents events).length := by
    rw [hlen]
    exact List.length_pos.mpr hne
  set L := sortedSunEvents events with hL
  have hmem : ∀ {x : SunEvent α}, x ∈ L ↔ x ∈ events :=
    fun {x} => mem_sortedSunEvents
  have hmono : ∀ {i j : ℕ} (hij : i ≤ j) (hj : j < L.length),
      (L.get ⟨i, lt_of_le_of_lt hij hj⟩).start_time ≤
        (L.get ⟨j, hj⟩).start_time :=
    fun {i j} hij hj => sortedSunEvents_mono events hij hj
  cases hidx : L.findIdx? (fun e => decide (s ≤ e.start_time)) with
  | none =>
    have hall : ∀ x ∈ L, x.start_time < s := by
      intro x hx
      have h := (List.findIdx?_eq_none_iff.mp hidx) x hx
      simpa using h
    have hres : get_sun_event events s 0 = some (L.get ⟨L.length - 1, by omega⟩) := by
      simp only [get_sun_event, ← hL, hidx]
      have h1 : ((((L.length : ℤ) - 1 + 0) % (L.length : ℤ))).toNat
          = L.length - 1 := by
        rw [show ((L.length : ℤ) - 1 + 0) = (L.length : ℤ) - 1 by ring,
          Int.emod_eq_of_lt (by omega) (by omega)]
        omega
      rw [h1, List.getElem?_eq_getElem (by omega), List.get_eq_getElem]
    refine ⟨L.get ⟨L.length - 1, by omega⟩, hres, hmem.mp (L.get_mem _ _), ?_, ?_⟩
    · intro _
      refine ⟨hall _ (L.get_mem _ _), ?_⟩
      intro y hy _
      obtain ⟨⟨j, hjlt⟩, hj⟩ := List.mem_iff_get.mp (hmem.mpr hy)
      calc y.start_time = (L.get ⟨j, hjlt⟩).start_time := by rw [hj]
        _ ≤ _ := hmono (by omega) (by omega)
    · intro hallge
      exact absurd (hallge _ (hmem.mp (L.get_mem 0 (by omega))))
        (not_le.mpr (hall _ (L.get_mem 0 (by omega))))
  | some i =>
    obtain ⟨hi, hpi, hbef⟩ := List.findIdx?_eq_some_iff_getElem.mp hidx
    have hsi : s ≤ (L.get ⟨i, hi⟩).start_time := by
      simp only [List.get_eq_getElem]
      simpa using hpi
    have hbefore : ∀ j (hj : j < i), (L.get ⟨j, lt_trans hj hi⟩).start_time < s := by
      intro j hj
      have h := hbef j hj
      simp only [List.get_eq_getElem]
      simpa using h
    rcases Nat.eq_zero_or_pos i with h0 | hpos
    · subst h0
      have hres : get_sun_event events s 0
          = some (L.get ⟨L.length - 1, by omega⟩) := by
        simp only [get_sun_event, ← hL, hidx]
        have h1 : ((((0 : ℕ) : ℤ) - 1 + 0) % (L.length : ℤ)).toNat
            = L.length - 1 := by
          rw [show (((0 : ℕ) : ℤ) - 1 + 0) = ((L.length : ℤ) - 1)
              + (L.length : ℤ) * (-1) by push_cast; ring,
            Int.add_mul_emod_self_left,
            Int.emod_eq_of_lt (by omega) (by omega)]
          omega
        rw [h1, List.getElem?_eq_getElem (by omega), List.get_eq_getElem]
      have hallge2 : ∀ x ∈ L, s ≤ x.start_time := by
        intro x hx
        obtain ⟨⟨j, hjlt⟩, hj⟩ := List.mem_iff_get.mp hx
        calc s ≤ (L.get ⟨0, by omega⟩).start_time := hsi
          _ ≤ (L.get ⟨j, hjlt⟩).start_time := hmono (by omega) (by omega)
          _ = x.start_time := by rw [hj]
      refine ⟨L.get ⟨L.length - 1, by omega⟩, hres, hmem.mp (L.get_mem _ _), ?_, ?_⟩
      · rintro ⟨x, hx, hxs⟩
        exact absurd (hallge2 x (hmem.mpr hx)) (not_le.mpr hxs)
      · intro _
        intro y hy
        obtain ⟨⟨j, hjlt⟩, hj⟩ := List.mem_iff_get.mp (hmem.mpr hy)
        calc y.start_time = (L.get ⟨j, hjlt⟩).start_time := by rw [hj]
          _ ≤ _ := hmono (by omega) (by omega)
    · have hres : get_sun_event events s 0
          = some (L.get ⟨i - 1, by omega⟩) := by
        simp only [get_sun_event, ← hL, hidx]
        have h1 : (((i : ℤ) - 1 + 0) % (L.length : ℤ)).toNat = i - 1 := by
          rw [show ((i : ℤ) - 1 + 0) = (i : ℤ) - 1 by ring,
            Int.emod_eq_of_lt (by omega) (by omega)]
          omega
        rw [h1, List.getElem?_eq_getElem (by omega), List.get_eq_getElem]
      have hlt : (L.get ⟨i - 1, by omega⟩).start_time < s := hbefore (i - 1) (by omega)
      refine ⟨L.get ⟨i - 1, by omega⟩, hres, hmem.mp (L.get_mem _ _), ?_, ?_⟩
      · intro _
        refine ⟨hlt, ?_⟩
        intro y hy hys
        obtain ⟨⟨j, hjlt⟩, hj⟩ := List.mem_iff_get.mp (hmem.mpr hy)
        rcases le_or_lt j (i - 1) with hji | hji
        · calc y.start_time = (L.get ⟨j, hjlt⟩).start_time := by rw [hj]
            _ ≤ _ := hmono hji (by omega)
        · have hij2 : i ≤ j := by omega
          have : s ≤ y.start_time := by
            calc s ≤ (L.get ⟨i, hi⟩).start_time := hsi
              _ ≤ (L.get ⟨j, hjlt⟩).start_time := hmono hij2 hjlt
              _ = y.start_time := by rw [hj]
          exact absurd hys (not_lt.mpr this)
      · intro hallge
        exact absurd (hallge _ (hmem.mp (L.get_mem (i - 1) (by omega))))
          (not_le.mpr hlt)

theorem get_sun_event_next_spec {α : Type} (events : List (SunEvent α))
    (s : ℚ) (hne : events ≠ []) :
    ∃ e, get_sun_event events s 1 = some e ∧ e ∈ events ∧
      ((∃ x ∈ events, s ≤ x.start_time) →
        s ≤ e.start_time ∧
          ∀ y ∈ events, s ≤ y.start_time → e.start_time ≤ y.start_time) ∧
      ((∀ x ∈ events, x.start_time < s) →
        ∀ y ∈ events, e.start_time ≤ y.start_time) := by
  have hlen := sortedSunEvents_length events
  have hn : 0 < (sortedSunEvents events).length := by
    rw [hlen]
    exact List.length_pos.mpr hne
  set L := sortedSunEvents events with hL
  have hmem : ∀ {x : SunEvent α}, x ∈ L ↔ x ∈ events :=
    fun {x} => mem_sortedSunEvents
  have hmono : ∀ {i j : ℕ} (hij : i ≤ j) (hj : j < L.length),
      (L.get ⟨i, lt_of_le_of_lt hij hj⟩).start_time ≤
        (L.get ⟨j, hj⟩).start_time :=
    fun {i j} hij hj => sortedSunEvents_mono events hij hj
  cases hidx : L.findIdx? (fun e => decide (s ≤ e.start_time)) with
  | none =>
    have hall : ∀ x ∈ L, x.start_time < s := by
      intro x hx
      have h := (List.findIdx?_eq_none_iff.mp hidx) x hx
      simpa using h
    have hres : get_sun_event events s 1 = some (L.get ⟨0, by omega⟩) := by
      simp only [get_sun_event, ← hL, hidx]
      have h1 : ((((L.length : ℤ) - 1 + 1) % (L.length : ℤ))).toNat = 0 := by
        rw [show ((L.length : ℤ) - 1 + 1) = (L.length : ℤ) by ring,
          Int.emod_self]
        omega
      rw [h1, List.getElem?_eq_getElem (by omega), List.get_eq_getElem]
    refine ⟨L.get ⟨0, by omega⟩, hres, hmem.mp (L.get_mem _ _), ?_, ?_⟩
    · rintro ⟨x, hx, hxs⟩
      exact absurd hxs (not_le.mpr (hall x (hmem.mpr hx)))
    · intro _
      intro y hy
      obtain ⟨⟨j, hjlt⟩, hj⟩ := List.mem_iff_get.mp (hmem.mpr hy)
      calc (L.get ⟨0, by omega⟩).start_time
          ≤ (L.get ⟨j, hjlt⟩).start_time := hmono (by omega) (by omega)
        _ = y.start_time := by rw [hj]
  | some i =>
    obtain ⟨hi, hpi, hbef⟩ := List.findIdx?_eq_some_iff_getElem.mp hidx
    have hsi : s ≤ (L.get ⟨i, hi⟩).start_time := by
      simp only [List.get_eq_getElem]
      simpa using hpi
    have hbefore : ∀ j (hj : j < i),
        (L.get ⟨j, lt_trans hj hi⟩).start_time < s := by
      intro j hj
      have h := hbef j hj
      simp only [List.get_eq_getElem]
      simpa using h
    have hres : get_sun_event events s 1 = some (L.get ⟨i, hi⟩) := by
      simp only [get_sun_event, ← hL, hidx]
      have h1 : (((i : ℤ) - 1 + 1) % (L.length : ℤ)).toNat = i := by
        rw [show ((i : ℤ) - 1 + 1) = (i : ℤ) by ring,
          Int.emod_eq_of_lt (by omega) (by omega)]
        omega
      rw [h1, List.getElem?_eq_getElem (by omega), List.get_eq_getElem]
    refine ⟨L.get ⟨i, hi⟩, hres, hmem.mp (L.get_mem _ _), ?_, ?_⟩
    · intro _
      refine ⟨hsi, ?_⟩
      intro y hy hys
      obtain ⟨⟨j, hjlt⟩, hj⟩ := List.mem_iff_get.mp (hmem.mpr hy)
      rcases le_or_lt i j with hij | hij
      · calc (L.get ⟨i, hi⟩).start_time
            ≤ (L.get ⟨j, hjlt⟩).start_time := hmono hij hjlt
          _ = y.start_time := by rw [hj]
      · have : y.start_time < s := by
          calc y.start_time = (L.get ⟨j, hjlt⟩).start_time := by rw [hj]
            _ < s := hbefore j hij
        exact absurd hys (not_le.mpr this)
    · intro hall
      exact absurd (hall _ (hmem.mp (L.get_mem i hi))) (not_lt.mpr hsi)

/-- C3 counterexample: with events at 100 and 200 seconds and `atSeconds =
200`, the event whose start time is at-or-before 200 is the one at 200, yet
`get_sun_event` with offset 0 returns the event at 100: the code selects the
latest event strictly before `atSeconds`, not at-or-before. -/
theorem C3_get_sun_event_counterexample :
    get_sun_event [evA, evB] 200 0 = some evA
    ∧ evB ∈ [evA, evB] ∧ evB.start_time ≤ 200
    ∧ evA.start_time < evB.start_time := by
  obtain ⟨e, hres, hm, himp1, _⟩ :=
    get_sun_event_current_spec [evA, evB] 200 (by simp)
  have h1 := himp1 ⟨evA, by simp, by norm_num [evA]⟩
  have he : e = evA := by
    rcases (by simpa using hm : e = evA ∨ e = evB) with h | h
    · exact h
    · exfalso
      rw [h] at h1
      have h2 := h1.1
      norm_num [evB] at h2
  rw [he] at hres
  exact ⟨hres, by simp, by norm_num [evB], by norm_num [evA, evB]⟩

/-- C3 (amended): for every non-empty set of sun events and every
`atSeconds`, `get_sun_event` with offset 0 returns an event of the set whose
start time is the latest one strictly before `atSeconds`, wrapping to an
event with the day's latest start time when `atSeconds` is at or before every
event's start time; `get_sun_event` with offset 1 returns an event whose
start time is the earliest one at-or-after `atSeconds`, wrapping to an event
with the day's earliest start time when `atSeconds` is after all of them —
i.e. the cyclic successor of the current event in the order sorted by start
time.  (The original claim's at-or-before rule for offset 0 fails when an
event starts exactly at `atSeconds`.) -/
theorem C3_get_sun_event_locates_bracketing_events {α : Type}
    (events : List (SunEvent α)) (s : ℚ) (hne : events ≠ []) :
    (∃ e, get_sun_event events s 0 = some e ∧ e ∈ events ∧
      ((∃ x ∈ events, x.start_time < s) →
        e.start_time < s ∧
          ∀ y ∈ events, y.start_time < s → y.start_time ≤ e.start_time) ∧
      ((∀ x ∈ events, s ≤ x.start_time) →
        ∀ y ∈ events, y.start_time ≤ e.start_time))
    ∧ (∃ e, get_sun_event events s 1 = some e ∧ e ∈ events ∧
      ((∃ x ∈ events, s ≤ x.start_time) →
        s ≤ e.start_time ∧
          ∀ y ∈ events, s ≤ y.start_time → e.start_time ≤ y.start_time) ∧
      ((∀ x ∈ events, x.start_time < s) →
        ∀ y ∈ events, e.start_time ≤ y.start_time)) :=
  ⟨get_sun_event_current_spec events s hne,
    get_sun_event_next_spec events s hne⟩

/-- Witness for C3 on the two-event timeline at `atSeconds = 150`. -/
theorem C3_get_sun_event_locates_bracketing_events_witness :
    (∃ e, get_sun_event [evA, evB] 150 0 = some e ∧ e ∈ [evA, evB] ∧
      ((∃ x ∈ [evA, evB], x.start_time < 150) →
        e.start_time < 150 ∧
          ∀ y ∈ [evA, evB], y.start_time < 150 →
            y.start_time ≤ e.start_time) ∧
      ((∀ x ∈ [evA, evB], 150 ≤ x.start_time) →
        ∀ y ∈ [evA, evB], y.start_time ≤ e.start_time))
    ∧ (∃ e, get_sun_event [evA, evB] 150 1 = some e ∧ e ∈ [evA, evB] ∧
      ((∃ x ∈ [evA, evB], 150 ≤ x.start_time) →
        150 ≤ e.start_time ∧
          ∀ y ∈ [evA, evB], 150 ≤ y.start_time →
            e.start_time ≤ y.start_time) ∧
      ((∀ x ∈ [evA, evB], x.start_time < 150) →
        ∀ y ∈ [evA, evB], e.start_time ≤ y.start_time)) :=
  C3_get_sun_event_locates_bracketing_events [evA, evB] 150 (by simp)

/-- C4 counterexample: timeline construction applies no reordering to event
times that the astronomical library did supply, so an activation whose astral
results are out of order as local seconds-since-midnight (e.g. a timezone
far from the location's meridian putting dawn after sunrise) yields an
unordered timeline: with supplied times dawn 36000, sunrise 32400 (rest
ordered) and dusk minimum 0, the constructed start times violate
`dawn ≤ sunrise`. -/
theorem C4_ordering_counterexample :
    sun_event_start_times
      { dawn := some 36000, sunrise := some 32400, noon := some 43200,
        sunset := some 46800, dusk := some 79200 } true 0
      = (36000, 32400, 43200, 46800, 79200)
    ∧ ¬ orderedTimeline (36000, 32400, 43200, 46800, 79200) := by
  constructor
  · simp only [sun_event_start_times, fill_solar_events, Option.getD_some]
    norm_num [pymod, max_def]
  · simp only [orderedTimeline]
    norm_num

/-- C4 (amended): the ordering invariant `dawn ≤ sunrise ≤ noon ≤ sunset ≤
dusk` holds on both input shapes the code's try/except can produce: when all
five astronomical events are missing, the seasonal fallback chain (later of
seasonal time and previous event plus 30 minutes) plus dusk clamping always
yields an ordered timeline, for either season table and any configured dusk
minimum; when all five events are supplied, the invariant holds provided the
supplied times are themselves ordered within the day — the construction
preserves but does not create order (see the counterexample). -/
theorem C4_ordering_of_code_paths (w : Bool) (m : ℚ) :
    orderedTimeline (sun_event_start_times
      { dawn := none, sunrise := none, noon := none, sunset := none,
        dusk := none } w m)
    ∧ (∀ d sr n ss du : ℚ, 0 ≤ d → d ≤ sr → sr ≤ n → n ≤ ss → ss ≤ du →
        du < 86400 →
        orderedTimeline (sun_event_start_times
          { dawn := some d, sunrise := some sr, noon := some n,
            sunset := some ss, dusk := some du } w m)) := by
  constructor
  · cases w with
    | false =>
      have hfill : fill_solar_events
          { dawn := none, sunrise := none, noon := none, sunset := none,
            dusk := none } false = (8100, 14400, 46800, 79200, 86100) := by
        norm_num [fill_solar_events, max_def]
      simp only [sun_event_start_times, hfill, orderedTimeline]
      refine ⟨?_, ?_, ?_, ?_⟩ <;>
        rw [pymod_eq_self (by norm_num) (by norm_num) (by norm_num),
          pymod_eq_self (by norm_num) (by norm_num) (by norm_num)]
      · norm_num
      · norm_num
      · norm_num
      · exact le_trans (by norm_num) (le_max_left _ _)
    | true =>
      have hfill : fill_solar_events
          { dawn := none, sunrise := none, noon := none, sunset := none,
            dusk := none } true = (31500, 37800, 43200, 46800, 79200) := by
        norm_num [fill_solar_events, max_def]
      simp only [sun_event_start_times, hfill, orderedTimeline]
      refine ⟨?_, ?_, ?_, ?_⟩ <;>
        rw [pymod_eq_self (by norm_num) (by norm_num) (by norm_num),
          pymod_eq_self (by norm_num) (by norm_num) (by norm_num)]
      · norm_num
      · norm_num
      · norm_num
      · exact le_trans (by norm_num) (le_max_left _ _)
  · intro d sr n ss du h0 h1 h2 h3 h4 h5
    have hfill : fill_solar_events
        { dawn := some d, sunrise := some sr, noon := some n,
          sunset := some ss, dusk := some du } w = (d, sr, n, ss, du) := by
      simp [fill_solar_events]
    simp only [sun_event_start_times, hfill, orderedTimeline]
    rw [pymod_eq_self h0 (by norm_num) (by linarith),
      pymod_eq_self (by linarith) (by norm_num) (by linarith),
      pymod_eq_self (by linarith) (by norm_num) (by linarith),
      pymod_eq_self (by linarith) (by norm_num) (by linarith),
      pymod_eq_self (by linarith) (by norm_num) (by linarith)]
    exact ⟨h1, h2, h3, le_trans h4 (le_max_left _ _)⟩

/-- Witness for C4 with ordered supplied times and a dusk minimum of 450. -/
theorem C4_ordering_of_code_paths_witness :
    orderedTimeline (sun_event_start_times
      { dawn := some 100, sunrise := some 200, noon := some 300,
        sunset := some 400, dusk := some 500 } true 450) :=
  (C4_ordering_of_code_paths true 450).2 100 200 300 400 500
    (by norm_num) (by norm_num) (by norm_num) (by norm_num) (by norm_num)
    (by norm_num)

theorem lookup_append {β : Type} (l₁ l₂ : List (String × β)) (a : String) :
    (l₁ ++ l₂).lookup a = ((l₁.lookup a).or (l₂.lookup a)) := by
  induction l₁ with
  | nil => simp [List.lookup]
  | cons hd tl ih =>
    obtain ⟨k, v⟩ := hd
    by_cases h : (a == k) = true
    · simp [List.lookup, h]
    · simp only [List.cons_append, List.lookup]
      rw [Bool.eq_false_iff.mpr h]
      simpa using ih

theorem synthesize_fold_lookup (l : List (String × EntityAttrs))
    (acc : List (String × EntityAttrs)) (a : String) :
    (l.foldl
        (fun acc pr =>
          if (acc.lookup pr.1).isSome then acc
          else acc ++ [(pr.1, offEntity)])
        acc).lookup a
      = (if (acc.lookup a).isSome then acc.lookup a
         else if a ∈ l.map Prod.fst then some offEntity else none) := by
  induction l generalizing acc with
  | nil =>
    cases h : acc.lookup a <;> simp [h]
  | cons hd tl ih =>
    simp only [List.foldl_cons]
    by_cases hk : (acc.lookup hd.1).isSome
    · rw [if_pos hk, ih]
      cases h : acc.lookup a with
      | some v => simp [h]
      | none =>
        have hne : a ≠ hd.1 := by
          rintro rfl
          rw [h] at hk
          simp at hk
        simp only [h, List.map_cons, Option.isSome_none, Bool.false_eq_true,
          if_false]
        split_ifs <;> simp_all [List.mem_cons]
    · rw [if_neg hk, ih]
      have hknone : acc.lookup hd.1 = none := by
        cases h : acc.lookup hd.1
        · rfl
        · rw [h] at hk
          simp at hk
      by_cases ha : a = hd.1
      · subst ha
        rw [lookup_append, hknone]
        have hbeq : (hd.1 == hd.1) = true := beq_iff_eq.mpr rfl
        simp [List.lookup, hbeq, hknone, List.mem_cons]
      · rw [lookup_append]
        have hbeq : (a == hd.1) = false := beq_eq_false_iff_ne.mpr ha
        have hsingle :
            ([(hd.1, offEntity)] : List (String × EntityAttrs)).lookup a
              = none := by
          simp [List.lookup, hbeq]
        rw [hsingle]
        cases h : acc.lookup a with
        | some v => simp [h]
        | none =>
          simp only [h, Option.or_none, List.map_cons,
            Option.isSome_none, Bool.false_eq_true, if_false]
          split_ifs <;> simp_all [List.mem_cons]

theorem lookup_map_after_process (t : Scene EntityAttrs)
    (l : List (String × EntityAttrs)) (a : String) :
    (l.map (fun pr => (pr.1,
        (entity_dicts_after_process pr.2
          ((t.entities.lookup pr.1).getD offEntity)).1))).lookup a
      = (l.lookup a).map (fun fe =>
          (entity_dicts_after_process fe
            ((t.entities.lookup a).getD offEntity)).1) := by
  induction l with
  | nil => simp [List.lookup]
  | cons hd tl ih =>
    obtain ⟨k, v⟩ := hd
    by_cases h : (a == k) = true
    · have hak : a = k := beq_iff_eq.mp h
      subst hak
      simp [List.lookup, h]
    · have hfalse : (a == k) = false := by
        cases hb : (a == k)
        · rfl
        · exact absurd hb h
      simp only [List.map_cons, List.lookup, hfalse]
      exact ih

/-- C7 counterexample: `extrapolate_entities` writes into the caller's
from-scene entity map in place, in two ways.  The synthesis loop inserts a
record for `light.b`, present only in the to-scene — so the map afterwards
holds a key it did not hold before; that record, and the caller's original
`light.a` record, are then further mutated by the color-mode borrow, which
writes the to side's color mode into them — so an original value is not
preserved either.  Nothing is cloned. -/
theorem C7_clone_before_mutate_counterexample :
    ((extrapolate_entities fromMutScene toMutScene 100 0).1.1).entities.lookup
        "light.a" = some { state := some "on", color_mode := some "hs" }
    ∧ fromMutScene.entities.lookup "light.a"
        = some { state := some "on" }
    ∧ ({ state := some "on", color_mode := some "hs" } : EntityAttrs)
        ≠ { state := some "on" }
    ∧ ((extrapolate_entities fromMutScene toMutScene 100 0).1.1).entities.lookup
        "light.b" = some { state := some STATE_OFF,
                           color_mode := some "rgb_color" }
    ∧ fromMutScene.entities.lookup "light.b" = none := by
  refine ⟨?_, ?_, ?_, ?_, ?_⟩
  · simp only [extrapolate_entities, synthesize_from_entities]
    rw [lookup_map_after_process, synthesize_fold_lookup]
    simp [fromMutScene, toMutScene, List.lookup, entity_dicts_after_process,
      color_mode_borrow, offEntity, STATE_OFF, STATE_UNAVAILABLE]
  · simp [fromMutScene, List.lookup]
  · simp
  · simp only [extrapolate_entities, synthesize_from_entities]
    rw [lookup_map_after_process, synthesize_fold_lookup]
    simp [fromMutScene, toMutScene, List.lookup, entity_dicts_after_process,
      color_mode_borrow, offEntity, STATE_OFF, STATE_UNAVAILABLE]
  · simp [fromMutScene, List.lookup]

/-- C7 (amended): `extrapolate_entities` mutates the caller's from-scene in
place (no clone): after the call its entity map holds, under each original
key, the original record, and under each id present only in the to-scene a
synthetic off record — each further updated by the from-side of the
color-mode borrow whenever that entity survives the unavailable and
missing-state guards and lacks a color mode the to side has.  In particular
the map does not hold the same keys as before, and original values are not
always preserved. -/
theorem C7_from_scene_entities_after_call (f t : Scene EntityAttrs)
    (p bm : ℚ) (a : String) :
    ((extrapolate_entities f t p bm).1.1).entities.lookup a
      = ((if (f.entities.lookup a).isSome then f.entities.lookup a
          else if a ∈ t.entities.map Prod.fst then some offEntity
          else none).map
          (fun fe => (entity_dicts_after_process fe
            ((t.entities.lookup a).getD offEntity)).1)) := by
  simp only [extrapolate_entities, synthesize_from_entities]
  rw [lookup_map_after_process, synthesize_fold_lookup]

/-- C6 counterexample: an entity recorded as `unknown` in the from-snapshot
(and `on` in the to-snapshot) is not skipped: at progress 80 the extrapolation
emits a DeviceUpdate whose threshold-selected state is `on`, and dispatch
then issues a service call for it.  Only `unavailable` is filtered before
emission; `unknown`/`problem`/jammed are only checked against the final
extrapolated state at dispatch time. -/
theorem C6_skip_unknown_counterexample :
    process_entity_extrapolation fromUnknownScene toOnScene "switch.a" 80 0
      = Except.ok (some { entity_id := "switch.a", state := some "on" })
    ∧ (apply_single_entity { entity_id := "switch.a", state := some "on" }
        0).isSome = true := by
  constructor
  · simp only [process_entity_extrapolation, fromUnknownScene, toOnScene]
    simp [List.lookup, liftOption, STATE_UNAVAILABLE, extrapolate_state,
      Except.map, offEntity, STATE_OFF, Bind.bind, Except.bind, Pure.pure,
      Except.pure, color_mode_borrow]
    norm_num
  · simp [apply_single_entity, STATE_UNAVAILABLE, STATE_UNKNOWN,
      STATE_PROBLEM, LOCK_JAMMED, entity_domain]

/-- C6 (amended): only `unavailable` (on either side) causes an entity to be
skipped before a DeviceUpdate is emitted; entities whose snapshot state is
`unknown`, `problem` or jammed can still be emitted (see the
counterexample).  Separately, dispatch issues no service call exactly when
the update's final state is missing or is one of
unavailable/unknown/problem/jammed; and every entity of the (synthesized)
batch whose processing yields an update has that update in the dispatched
list — entities are processed independently. -/
theorem C6_unavailable_skip_and_dispatch_guard :
    (∀ (f t : Scene EntityAttrs) (id : String) (p bm : ℚ)
        (fe : EntityAttrs),
        f.entities.lookup id = some fe →
        (fe.state = some STATE_UNAVAILABLE
          ∨ ((t.entities.lookup id).getD offEntity).state
              = some STATE_UNAVAILABLE) →
        process_entity_extrapolation f t id p bm = Except.ok none)
    ∧ (∀ (u : FinalEntity) (tr : ℚ),
        apply_single_entity u tr = none ↔
          (u.state = none ∨ u.state = some STATE_UNAVAILABLE
            ∨ u.state = some STATE_UNKNOWN ∨ u.state = some STATE_PROBLEM
            ∨ u.state = some LOCK_JAMMED))
    ∧ (∀ (f t : Scene EntityAttrs) (p bm : ℚ) (pr : String × EntityAttrs)
        (u : FinalEntity),
        pr ∈ (synthesize_from_entities f t).entities →
        process_entity_extrapolation (synthesize_from_entities f t) t pr.1
            p bm = Except.ok (some u) →
        u ∈ (extrapolate_entities f t p bm).2) := by
  refine ⟨?_, ?_, ?_⟩
  · intro f t id p bm fe hlook hun
    simp only [process_entity_extrapolation, hlook, liftOption, Bind.bind,
      Except.bind]
    rw [if_pos hun]
    rfl
  · intro u tr
    cases h : u.state with
    | none => simp [apply_single_entity, h]
    | some s =>
      simp only [apply_single_entity, h]
      by_cases hg : s = STATE_UNAVAILABLE ∨ s = STATE_UNKNOWN
          ∨ s = STATE_PROBLEM ∨ s = LOCK_JAMMED
      · rw [if_pos hg]
        simp only [true_iff]
        rcases hg with h1 | h1 | h1 | h1 <;> simp [h1]
      · rw [if_neg hg]
        simp only [not_or] at hg
        obtain ⟨h1, h2, h3, h4⟩ := hg
        simp [h1, h2, h3, h4]
  · intro f t p bm pr u hpr hproc
    simp only [extrapolate_entities]
    apply List.mem_filterMap.mpr
    refine ⟨Except.ok (some u), ?_, rfl⟩
    apply List.mem_map.mpr
    exact ⟨pr, hpr, by rw [hproc]⟩

/-- Witness for C6: a concrete unavailable entity is skipped (no update
emitted). -/
theorem C6_unavailable_skip_and_dispatch_guard_witness :
    process_entity_extrapolation fromUnavailScene toUnavailTargetScene
      "light.u" 42 0 = Except.ok none :=
  C6_unavailable_skip_and_dispatch_guard.1 fromUnavailScene
    toUnavailTargetScene "light.u" 42 0
    { state := some "unavailable" }
    (by simp [fromUnavailScene, List.lookup])
    (Or.inl rfl)

end SceneExtrapolation
